import Mathlib

/-
Formal model of the `pull-resta-order-details` order synchronisation and ETL
pipeline.  The Python sources are shallowly embedded: each service method is
translated to a pure Lean function over explicit state, SQLAlchemy sessions
become a pair of database snapshots (committed / in-transaction), and
`datetime` values are modelled at the granularity each component needs
(a linear order of integer timestamps for the sync tracker, a full
year/month/day calendar for the schedule manager and the date-time grid).
-/

namespace PullResta

/-! ## Sync checkpoint tracker — `src/services/order_tracker_v2.py` -/

/-- Datetimes compared by the tracker are modelled as integers (epoch
timestamps); Python `datetime` comparison is a linear order, which `Int`
supplies. -/
abbrev DT := Int

/-- Row of the `order_sync_tracker` table, restricted to the fields the
tracker logic reads and writes (`last_sync_date`, a wall-clock audit field
never read back by the code, is omitted). -/
structure TrackerRow where
  last_order_id : Int
  last_order_date : DT
  total_orders_synced : Nat
deriving DecidableEq, Repr

/-- `OrderTrackerServiceV2.should_process_order`: decide from the checkpoint
whether an order summary still has to be processed. -/
def should_process_order (order_id : Int) (order_date : DT)
    (checkpoint : Option (Int × DT)) : Bool :=
  match checkpoint with
  | none => true
  | some (last_order_id, last_order_date) =>
    if order_date > last_order_date then true
    else if order_date = last_order_date ∧ order_id > last_order_id then true
    else false

/-- `OrderTrackerServiceV2.update_sync_checkpoint`, acting on the tracker row
of the given restaurant.  (The service raises `NoResultFound` when the row is
absent; the claims quantify over restaurants that have a tracker, so the row
is passed directly.) -/
def update_sync_checkpoint (tracker : TrackerRow) (last_order_id : Int)
    (last_order_date : DT) (orders_synced_count : Nat) : TrackerRow :=
  if last_order_date > tracker.last_order_date ∨
      (last_order_date = tracker.last_order_date ∧ last_order_id > tracker.last_order_id) then
    { tracker with
      last_order_id := last_order_id
      last_order_date := last_order_date
      total_orders_synced := tracker.total_orders_synced + orders_synced_count }
  else
    tracker

/-- Strict lexicographic order on `(last_order_date, last_order_id)` pairs. -/
def lex_lt (p q : DT × Int) : Prop :=
  p.1 < q.1 ∨ (p.1 = q.1 ∧ p.2 < q.2)

/-- Reflexive closure of `lex_lt`. -/
def lex_le (p q : DT × Int) : Prop := p = q ∨ lex_lt p q

instance (p q : DT × Int) : Decidable (lex_lt p q) := by
  unfold lex_lt; infer_instance

instance (p q : DT × Int) : Decidable (lex_le p q) := by
  unfold lex_le; infer_instance

/-- The `(last_order_date, last_order_id)` pointer stored in a tracker row. -/
def checkpoint_pair (t : TrackerRow) : DT × Int :=
  (t.last_order_date, t.last_order_id)

/-- A finite sequence of `update_sync_checkpoint` calls, applied in order.
Each call carries `(last_order_id, last_order_date, orders_synced_count)`. -/
def apply_checkpoint_calls (t : TrackerRow) (calls : List (Int × DT × Nat)) : TrackerRow :=
  calls.foldl (fun acc c => update_sync_checkpoint acc c.1 c.2.1 c.2.2) t

/-! ## Page walk — `OrderSyncManager.sync_restaurant_orders`
(`src/services/order_sync_manager.py`)

The walk is driven by the page data the API returns: `pages` lists the
successive non-error responses (the list ending models a response with no
`Data`).  Per-order detail fetching, database sync and the ETL step are
collaborators that either succeed or make the order-level `except` clause
`continue`; they are summarised by the oracle `process_ok`. -/

/-- An entry of a `get_orders_list` page: the order `ID` and its parsed
`CreationDate` (`none` models a missing or unparseable date). -/
structure OrderSummary where
  id : Int
  creation_date : Option DT
deriving DecidableEq, Repr

/-- The `stats` dictionary of `sync_restaurant_orders` (the `errors` list,
which only accumulates log strings, is omitted).  `most_recent_order`
mirrors the `most_recent_order_id` / `most_recent_order_date` locals, which
are always updated in lockstep with it. -/
structure SyncStats where
  total_orders_processed : Nat
  new_orders_synced : Nat
  duplicate_orders_skipped : Nat
  pages_processed : Nat
  most_recent_order : Option (Int × DT)
deriving DecidableEq, Repr

/-- Loop state of the page walk: the checkpoint read once at the start, the
`consecutive_old_orders` counter and the running statistics. -/
structure WalkState where
  checkpoint : Option (Int × DT)
  consecutive_old_orders : Nat
  stats : SyncStats
deriving DecidableEq, Repr

/-- Outcome of a piece of the walk: `stopped` is the early `return stats`
taken when the consecutive-old threshold is reached; `continued` keeps
walking. -/
inductive StepOutcome where
  | stopped (s : WalkState)
  | continued (s : WalkState)
deriving DecidableEq, Repr

/-- `stop_threshold = 10  # Stop after finding 10 consecutive old orders`. -/
def stop_threshold : Nat := 10

/-- Body of the `for order_summary in orders_data` loop. -/
def process_summary (process_ok : Int → Bool) (s : WalkState) (o : OrderSummary) :
    StepOutcome :=
  match o.creation_date with
  | none => .continued s
  | some order_date =>
    if ¬ should_process_order o.id order_date s.checkpoint then
      let s1 := { s with
        consecutive_old_orders := s.consecutive_old_orders + 1
        stats := { s.stats with
          duplicate_orders_skipped := s.stats.duplicate_orders_skipped + 1 } }
      if s1.consecutive_old_orders ≥ stop_threshold then .stopped s1 else .continued s1
    else
      let s1 := { s with consecutive_old_orders := 0 }
      if ¬ process_ok o.id then .continued s1
      else
        let s2 := { s1 with stats := { s1.stats with
          new_orders_synced := s1.stats.new_orders_synced + 1 } }
        match s2.stats.most_recent_order with
        | none => .continued { s2 with stats := { s2.stats with
            most_recent_order := some (o.id, order_date) } }
        | some (_, d) =>
          if order_date > d then
            .continued { s2 with stats := { s2.stats with
              most_recent_order := some (o.id, order_date) } }
          else .continued s2

/-- The inner loop over one page of order summaries. -/
def walk_orders (process_ok : Int → Bool) : WalkState → List OrderSummary → StepOutcome
  | s, [] => .continued s
  | s, o :: rest =>
    match process_summary process_ok s o with
    | .stopped s1 => .stopped s1
    | .continued s1 => walk_orders process_ok s1 rest

/-- `if max_pages and page_index > max_pages` (a `max_pages` of `0` is falsy
in Python, like `None`). -/
def page_limit_reached (max_pages : Option Nat) (page_index : Nat) : Bool :=
  match max_pages with
  | none => false
  | some mp => mp ≠ 0 && page_index > mp

/-- The `while True` page loop. -/
def walk_pages (process_ok : Int → Bool) (max_pages : Option Nat) :
    Nat → WalkState → List (List OrderSummary) → StepOutcome
  | _, s, [] => .continued s
  | page_index, s, page :: rest =>
    if page_limit_reached max_pages page_index then .continued s
    else if page.isEmpty then .continued s
    else
      let s1 := { s with stats := { s.stats with
        pages_processed := s.stats.pages_processed + 1 } }
      match walk_orders process_ok s1 page with
      | .stopped s2 => .stopped s2
      | .continued s2 =>
        let s3 := { s2 with stats := { s2.stats with
          total_orders_processed := s2.stats.total_orders_processed + page.length } }
        walk_pages process_ok max_pages (page_index + 1) s3 rest

/-- `datetime(1900, 1, 1)` (SQL Server safe minimum) as an epoch timestamp. -/
def min_sync_date : DT := -2208988800

/-- `OrderTrackerServiceV2.get_sync_checkpoint`: read the tracker row, or
lazily create the sentinel row and report no checkpoint. -/
def get_sync_checkpoint (db : Option TrackerRow) : TrackerRow × Option (Int × DT) :=
  match db with
  | some t => (t, some (t.last_order_id, t.last_order_date))
  | none => (⟨0, min_sync_date, 0⟩, none)

/-- Result of a whole sync run: the tracker row as persisted when the call
returns, the statistics, and whether the run ended through the
consecutive-old-orders early return. -/
structure SyncOutcome where
  tracker : TrackerRow
  stats : SyncStats
  stopped_by_threshold : Bool
deriving DecidableEq, Repr

/-- `OrderSyncManager.sync_restaurant_orders`: read the checkpoint, walk the
pages, and — only when the loop ends by `break`/page exhaustion — update the
checkpoint with the most recent order synced.  The early `return stats`
taken at the threshold bypasses the checkpoint update. -/
def sync_restaurant_orders (process_ok : Int → Bool) (max_pages : Option Nat)
    (db : Option TrackerRow) (pages : List (List OrderSummary)) : SyncOutcome :=
  let tc := get_sync_checkpoint db
  let init : WalkState := ⟨tc.2, 0, ⟨0, 0, 0, 0, none⟩⟩
  match walk_pages process_ok max_pages 1 init pages with
  | .stopped s => ⟨tc.1, s.stats, true⟩
  | .continued s =>
    match s.stats.most_recent_order with
    | some (mid, mdate) =>
      if mid ≠ 0 ∧ s.stats.new_orders_synced > 0 then
        ⟨update_sync_checkpoint tc.1 mid mdate s.stats.new_orders_synced, s.stats, false⟩
      else ⟨tc.1, s.stats, false⟩
    | none => ⟨tc.1, s.stats, false⟩

/-- Scenario B page: orders `110..101` (dates `1010..1001`, all newer than
the checkpoint `(100, 1000)`) followed by ten consecutive old orders
`100..91` (dates `1000..991`). -/
def scenarioB_page : List OrderSummary :=
  [⟨110, some 1010⟩, ⟨109, some 1009⟩, ⟨108, some 1008⟩, ⟨107, some 1007⟩,
   ⟨106, some 1006⟩, ⟨105, some 1005⟩, ⟨104, some 1004⟩, ⟨103, some 1003⟩,
   ⟨102, some 1002⟩, ⟨101, some 1001⟩,
   ⟨100, some 1000⟩, ⟨99, some 999⟩, ⟨98, some 998⟩, ⟨97, some 997⟩,
   ⟨96, some 996⟩, ⟨95, some 995⟩, ⟨94, some 994⟩, ⟨93, some 993⟩,
   ⟨92, some 992⟩, ⟨91, some 991⟩]

/-- Old orders `90..81` (dates earlier than the checkpoint date) appearing
before the checkpoint order `100` is ever observed, followed by a genuinely
new order `110`. -/
def pre_checkpoint_old_page : List OrderSummary :=
  [⟨90, some 990⟩, ⟨89, some 989⟩, ⟨88, some 988⟩, ⟨87, some 987⟩,
   ⟨86, some 986⟩, ⟨85, some 985⟩, ⟨84, some 984⟩, ⟨83, some 983⟩,
   ⟨82, some 982⟩, ⟨81, some 981⟩, ⟨110, some 1010⟩]

/-! ## ETL session and fact population —
`src/services/etl_orchestration_service.py`,
`src/services/fact_population_service.py`,
`src/services/payment_method_dimension.py`,
`src/services/customer_dimension.py`,
`src/services/order_processing_tracker.py`,
`src/services/restaurant_metrics_service.py`

Rows are projected to their keys and business identifiers: descriptive
columns and numeric measures (Python floats fed by aggregate read-only
queries) do not influence which rows exist, which keys are returned, or
what is committed, which is what claims C2 and C8 are about.  Control flow
— existence checks, inserts, flushes, commits, rollbacks and raises — is
translated in full.  Datetimes are modelled at `(day, hour)` granularity,
matching the hourly grid. -/

namespace Etl

/-- Hour-granularity timestamp: `(calendar day number, hour of day)`. -/
abbrev Hour := Int × Nat

/-- Operational `Payment` row (fields read by the ETL flow). -/
structure PaymentRec where
  id : Int
  order_id : Int
  payment_method_id : Int
deriving DecidableEq, Repr

/-- Operational `Order` row (fields read by the ETL flow). -/
structure OrderRec where
  id : Int
  restaurant_id : Int
  customer_id : Int
  promotion_id : Option Int
  creation_day : Int
  creation_hour : Nat
deriving DecidableEq, Repr

/-- `dim_restaurant` row as declared in `dimentional_models.py`
(`restaurant_key`, business `restaurant_id`, `is_active`; the SCD and metric
columns are commented out of the schema). -/
structure DimRestaurantRow where
  restaurant_key : Nat
  restaurant_id : Int
  is_active : Bool
deriving DecidableEq, Repr

/-- `dim_customer` row (keys, current-record flag and restaurant scope). -/
structure DimCustomerRow where
  customer_key : Nat
  customer_id : Int
  is_current : Bool
  restaurant_key : Nat
deriving DecidableEq, Repr

/-- `dim_payment_method` row (keys and the restaurant scope column). -/
structure DimPaymentMethodRow where
  payment_method_key : Nat
  payment_method_id : Int
  restaurant_id : Int
deriving DecidableEq, Repr

/-- `fact_orders` row (keys; measures omitted from the projection). -/
structure FactOrderRow where
  order_key : Nat
  order_id : Int
  datetime_key : Nat
  customer_key : Nat
  restaurant_key : Nat
  promotion_key : Option Nat
deriving DecidableEq, Repr

/-- `fact_payments` row (keys; measures omitted from the projection). -/
structure FactPaymentRow where
  payment_key : Nat
  payment_id : Int
  order_key : Nat
  datetime_key : Nat
  payment_method_key : Nat
  restaurant_key : Nat
deriving DecidableEq, Repr

/-- `fact_customer_metrics` row (keys; measures omitted). -/
structure FactCustomerMetricsRow where
  metric_key : Nat
  order_id : Int
  customer_key : Nat
  datetime_key : Nat
  restaurant_key : Nat
deriving DecidableEq, Repr

/-- `processed_orders` ledger entry. -/
structure ProcessedOrderRow where
  order_id : Int
  fact_type : String
deriving DecidableEq, Repr

/-- One database snapshot: operational tables, dimension tables, fact
tables, the ledger, the hourly date-time grid (modelled as the
timestamp-to-key map it implements) and the surrogate-key generator. -/
structure Database where
  restaurants : List Int
  customers : List Int
  promotions : List Int
  payments : List PaymentRec
  orders : List OrderRec
  dim_restaurant : List DimRestaurantRow
  dim_customer : List DimCustomerRow
  dim_payment_method : List DimPaymentMethodRow
  fact_orders : List FactOrderRow
  fact_payments : List FactPaymentRow
  fact_customer_metrics : List FactCustomerMetricsRow
  fact_restaurant_metrics : List (Nat × Nat)
  processed_orders : List ProcessedOrderRow
  dim_datetime : List (Hour × Nat)
  next_key : Nat
deriving DecidableEq, Repr

/-- A SQLAlchemy session over the database: `committed` is the state made
durable by the last `commit`, `current` is the in-transaction view (adds
and in-place updates are visible to subsequent queries of the same session;
flush assigns keys, which the model does at insertion time since every key
is flushed before it is read). -/
structure Session where
  committed : Database
  current : Database
deriving DecidableEq, Repr

/-- `session.rollback()`: discard the writes not yet committed. -/
def rollback (s : Session) : Session := { s with current := s.committed }

/-- Errors surfacing in the per-order flow.  `injected n` models an
exception thrown by a collaborator (network, constraint or data error) at
the start of step `n`; the other constructors are raised by the embedded
code itself: `value_error` for the explicit `raise ValueError` guards,
`attribute_error` for accesses to `DimRestaurant` columns the declared
schema omits, `type_error` for the two-argument call to the one-parameter
`update_promotion_dimension`. -/
inductive EtlError where
  | injected (step : Nat)
  | value_error
  | attribute_error
  | type_error
deriving DecidableEq, Repr

end Etl

/-! ## Restaurant dimension — `src/services/restaurant_dimension.py` -/

namespace RestDim

/-- A `dim_restaurant` row as DECLARED in `dimentional_models.py` (lines
80-98): surrogate key, business id, name and `is_active` (the company
columns are never read back and are omitted).  The Type-2 fields
`is_current` and `expiration_date` and the three performance-metric columns
are commented out of the declared schema — which is what makes the service
below crash. -/
structure DimRestaurantDecl where
  restaurant_key : Nat
  restaurant_id : Int
  restaurant_name : String
  is_active : Bool
deriving DecidableEq, Repr

/-- Operational `Restaurant` fields the service receives. -/
structure RestaurantRec where
  id : Int
  name : String
deriving DecidableEq, Repr

/-- The `dim_restaurant` table as its transactional pair (committed and
in-transaction views) — the single-table restriction of `Etl.Session`. -/
structure RestDimSession where
  committed : List DimRestaurantDecl
  current : List DimRestaurantDecl
deriving DecidableEq, Repr

/-- `session.rollback()` restricted to this table. -/
def rollback (s : RestDimSession) : RestDimSession :=
  { s with current := s.committed }

/-- `RestaurantDimensionService.update_restaurant_dimension` as executed
against the declared schema.  The first statement of the method body builds
the query filter `DimRestaurant.is_current == True`
(restaurant_dimension.py lines 18-22); `is_current` is not an attribute of
the declared `DimRestaurant` model, so the access raises `AttributeError`
before any row is read or written — the change detection and the
expire-and-insert logic further down likewise name only undeclared columns
(`is_current`, `expiration_date`, `avg_daily_orders`, `avg_order_value`,
`peak_hour_capacity`) and are unreachable.  The except clause (lines 72-75)
rolls the session back and re-raises.  Hence every call aborts: no branch
updates a name, expires a row, inserts one, or returns a surrogate key; the
result pairs the raised error with the session as the exception escapes. -/
def update_restaurant_dimension (s : RestDimSession) (_restaurant : RestaurantRec) :
    Etl.EtlError × RestDimSession :=
  (.attribute_error, rollback s)

/-- Concrete table for claim C6: one committed, active row for restaurant
`5`, named `A`, with surrogate key `1`. -/
def c6_session : RestDimSession :=
  ⟨[⟨1, 5, "A", true⟩], [⟨1, 5, "A", true⟩]⟩

end RestDim

/-! ## Promotion dimension — `src/services/promotion_dimension.py` -/

namespace PromoDim

/-- Operational `Promotion` fields read by the service (descriptive columns
omitted).  `restaurant_id` is the promotion-owning restaurant that the
service copies into the new dimension row. -/
structure PromotionRec where
  id : Int
  restaurant_id : Int
deriving DecidableEq, Repr

/-- `dim_promotion` row as the service writes it (descriptive columns
omitted).  The service sets a `restaurant_id` column while the declared
schema names it `restaurant_key`; the drift is recorded with claim C7. -/
structure DimPromotionRec where
  promotion_key : Nat
  promotion_id : Int
  restaurant_id : Int
deriving DecidableEq, Repr

/-- The `dim_promotion` table plus the surrogate-key generator. -/
structure PromoState where
  rows : List DimPromotionRec
  next_key : Nat
deriving DecidableEq, Repr

/-- `PromotionDimensionService.update_promotion_dimension`: note the single
`promotion` parameter and the lookup by `promotion_id` ALONE — no restaurant
scope is accepted or filtered on.  (The orchestrator call site passes a
second `restaurant_key` argument that this signature does not take.) -/
def update_promotion_dimension (st : PromoState) (promotion : PromotionRec) :
    PromoState × Nat :=
  match st.rows.find? (fun r => r.promotion_id == promotion.id) with
  | some r => (st, r.promotion_key)
  | none =>
    let key := st.next_key
    (⟨st.rows ++ [⟨key, promotion.id, promotion.restaurant_id⟩], key + 1⟩, key)

/-- Concrete state for claim C7: a dimension row for promotion `7` scoped to
restaurant `1`, with surrogate key `3`. -/
def c7_state : PromoState := ⟨[⟨3, 7, 1⟩], 4⟩

end PromoDim

/-! ## Calendar arithmetic shared by the schedule manager and the
date-time grid -/

/-- Gregorian leap-year rule (as implemented by Python `datetime`). -/
def is_leap_year (y : Nat) : Bool :=
  y % 4 == 0 && (y % 100 != 0 || y % 400 == 0)

/-- Days in a month of the proleptic Gregorian calendar. -/
def days_in_month (y : Nat) (m : Nat) : Nat :=
  if m = 2 then (if is_leap_year y then 29 else 28)
  else if m = 4 ∨ m = 6 ∨ m = 9 ∨ m = 11 then 30
  else 31

/-- A calendar date (Python `datetime.date`; years `1..9999`). -/
structure Date where
  year : Nat
  month : Nat
  day : Nat
deriving DecidableEq, Repr

/-- Days in all years before `y` (year 1 is the first year). -/
def days_before_year (y : Nat) : Nat :=
  365 * (y - 1) + (y - 1) / 4 - (y - 1) / 100 + (y - 1) / 400

/-- Days in the months of year `y` strictly before month `m`. -/
def days_before_month (y m : Nat) : Nat :=
  (List.range (m - 1)).foldl (fun acc k => acc + days_in_month y (k + 1)) 0

/-- Python `date.toordinal`: day number with `0001-01-01` as day `1`. -/
def to_ordinal (d : Date) : Nat :=
  days_before_year d.year + days_before_month d.year d.month + d.day

/-- Python `date.weekday()`: `0` = Monday .. `6` = Sunday
(`0001-01-01` was a Monday in the proleptic Gregorian calendar). -/
def py_weekday (d : Date) : Nat := (to_ordinal d + 6) % 7

/-- Python `date.isoweekday()`: `1` = Monday .. `7` = Sunday. -/
def isoweekday (d : Date) : Nat := py_weekday d + 1

/-- A time of day (Python `datetime.time`; microseconds are not used by the
embedded code). -/
structure TimeOfDay where
  hour : Nat
  minute : Nat
  second : Nat
deriving DecidableEq, Repr

/-- Seconds since midnight; Python compares `time` values lexicographically
by `(hour, minute, second)`, which for in-range components is exactly the
order of this count. -/
def seconds_of_day (t : TimeOfDay) : Nat :=
  t.hour * 3600 + t.minute * 60 + t.second

/-- A timestamp (Python `datetime.datetime`). -/
structure PyDateTime where
  date : Date
  time : TimeOfDay
deriving DecidableEq, Repr

/-- `(b - a).total_seconds()` for two timestamps. -/
def total_seconds_between (a b : PyDateTime) : Int :=
  ((to_ordinal b.date : Int) - (to_ordinal a.date : Int)) * 86400 +
    ((seconds_of_day b.time : Int) - (seconds_of_day a.time : Int))

/-! ## Schedule manager — `src/services/schedule_manager.py` -/

namespace Sched

/-- `ScheduleWindow`: the time-of-day window and the active days, the
latter as Python `weekday()` numbers (`0` = Monday .. `6` = Sunday — the
`Day` enum list index used by `Day.from_datetime`). -/
structure ScheduleWindow where
  start_time : TimeOfDay
  end_time : TimeOfDay
  active_days : List Nat
deriving DecidableEq, Repr

/-- The `while days_ahead < 8` search loop of `time_until_next_window`: the
first `days_ahead` in `0..7` whose day is active and, if it is today, whose
start time has not yet passed; `none` when the loop exhausts all eight
candidates and the code raises `RuntimeError`.  (The Python successor step
`list(Day)[(test_day.value - 1 + 1) % 7]` is day-index increment mod 7.) -/
def find_days_ahead (sched : ScheduleWindow) (now : PyDateTime) : Option Nat :=
  (List.range 8).find? (fun k =>
    sched.active_days.contains ((py_weekday now.date + k) % 7) &&
      (if k == 0 then
        decide (seconds_of_day now.time < seconds_of_day sched.start_time)
      else true))

/-- `ScheduleManager.time_until_next_window`: seconds until the next window
start.  `next_start` is built with
`next_start.replace(day=next_start.day + days_ahead)`, which Python rejects
with `ValueError` whenever the shifted day number does not exist in the
CURRENT month. -/
def time_until_next_window (sched : ScheduleWindow) (now : PyDateTime) :
    Except String Int :=
  match find_days_ahead sched now with
  | none => .error "RuntimeError: No active days found in schedule"
  | some days_ahead =>
    let new_day := now.date.day + days_ahead
    if days_ahead > 0 ∧ ¬ (1 ≤ new_day ∧ new_day ≤ days_in_month now.date.year now.date.month) then
      .error "ValueError: day is out of range for month"
    else
      let next_start : PyDateTime :=
        ⟨⟨now.date.year, now.date.month, if days_ahead > 0 then new_day else now.date.day⟩,
          ⟨sched.start_time.hour, sched.start_time.minute, 0⟩⟩
      .ok (max 0 (total_seconds_between now next_start))

/-- The Monday-to-Friday 09:00-22:00 schedule of Scenario C. -/
def weekday_schedule : ScheduleWindow :=
  ⟨⟨9, 0, 0⟩, ⟨22, 0, 0⟩, [0, 1, 2, 3, 4]⟩

end Sched

/-! ## Date-time grid records — `src/services/datetime_dimension.py` -/

namespace Grid

/-- `_get_day_part`: the fixed ordered day-part windows. -/
def get_day_part (hour : Nat) : String :=
  if 6 ≤ hour ∧ hour < 11 then "breakfast"
  else if 11 ≤ hour ∧ hour < 15 then "lunch"
  else if 15 ≤ hour ∧ hour < 23 then "dinner"
  else "off_hours"

/-- `_is_peak_hour`: membership in one of the fixed peak windows. -/
def is_peak_hour (hour : Nat) : Bool :=
  decide ((7 ≤ hour ∧ hour < 9) ∨ (12 ≤ hour ∧ hour < 14) ∨ (18 ≤ hour ∧ hour < 20))

/-- `_is_business_hour`: the single fixed 06-23 window. -/
def is_business_hour (hour : Nat) : Bool :=
  decide (6 ≤ hour ∧ hour < 23)

/-- `_is_holiday`: the implementation is a stub returning `False`. -/
def is_holiday (_d : Date) : Bool := false

/-- `_get_fiscal_year` (fiscal year starts in month 7). -/
def get_fiscal_year (d : Date) : Int :=
  if d.month ≥ 7 then (d.year : Int) else (d.year : Int) - 1

/-- `_get_fiscal_quarter`. -/
def get_fiscal_quarter (d : Date) : Nat :=
  if d.month ≥ 7 then ((d.month - 7) / 3) + 1 else ((d.month + 5) / 3) + 1

/-- `_get_fiscal_month`. -/
def get_fiscal_month (d : Date) : Nat :=
  if d.month ≥ 7 then d.month - 6 else d.month + 6

/-- A `dim_datetime` record as `_create_datetime_record` builds it.  The
`date` copy of the timestamp and the ISO `week` number are calendar
derivations not involved in any claim and are omitted from the
projection. -/
structure DimDateTimeRec where
  dt : PyDateTime
  year : Nat
  quarter : Nat
  month : Nat
  day : Nat
  hour : Nat
  minute : Nat
  day_of_week : Nat
  is_weekend : Bool
  is_holiday : Bool
  day_part : String
  is_peak_hour : Bool
  is_business_hour : Bool
  fiscal_year : Int
  fiscal_quarter : Nat
  fiscal_month : Nat
deriving DecidableEq, Repr

/-- `DateTimeDimensionService._create_datetime_record`. -/
def create_datetime_record (dt : PyDateTime) : DimDateTimeRec :=
  { dt := dt
    year := dt.date.year
    quarter := ((dt.date.month - 1) / 3) + 1
    month := dt.date.month
    day := dt.date.day
    hour := dt.time.hour
    minute := dt.time.minute
    day_of_week := isoweekday dt.date
    is_weekend := decide (isoweekday dt.date ∈ [5, 6, 7])
    is_holiday := is_holiday dt.date
    day_part := get_day_part dt.time.hour
    is_peak_hour := is_peak_hour dt.time.hour
    is_business_hour := is_business_hour dt.time.hour
    fiscal_year := get_fiscal_year dt.date
    fiscal_quarter := get_fiscal_quarter dt.date
    fiscal_month := get_fiscal_month dt.date }

end Grid

/-! ## Claims and supporting lemmas -/

theorem lex_le_trans {p q r : DT × Int} (h1 : lex_le p q) (h2 : lex_le q r) :
    lex_le p r := by
  rcases h1 with rfl | h1
  · exact h2
  · rcases h2 with rfl | h2
    · exact Or.inr h1
    · right
      rcases h1 with h1 | ⟨e1, l1⟩ <;> rcases h2 with h2 | ⟨e2, l2⟩
      · exact Or.inl (lt_trans h1 h2)
      · exact Or.inl (e2 ▸ h1)
      · exact Or.inl (e1 ▸ h2)
      · exact Or.inr ⟨e1.trans e2, lt_trans l1 l2⟩

theorem update_sync_checkpoint_mono (t : TrackerRow) (i : Int) (d : DT) (c : Nat) :
    lex_le (checkpoint_pair t) (checkpoint_pair (update_sync_checkpoint t i d c)) := by
  unfold update_sync_checkpoint
  split
  · rename_i h
    right
    rcases h with h | ⟨h1, h2⟩
    · exact Or.inl h
    · exact Or.inr ⟨h1.symm, h2⟩
  · exact Or.inl rfl

theorem apply_checkpoint_calls_mono (calls : List (Int × DT × Nat)) (t : TrackerRow) :
    lex_le (checkpoint_pair t) (checkpoint_pair (apply_checkpoint_calls t calls)) := by
  induction calls generalizing t with
  | nil => exact Or.inl rfl
  | cons c cs ih =>
    have h1 := update_sync_checkpoint_mono t c.1 c.2.1 c.2.2
    have h2 := ih (update_sync_checkpoint t c.1 c.2.1 c.2.2)
    simpa [apply_checkpoint_calls] using lex_le_trans h1 h2

/-- Claim C4: for every restaurant tracker and every finite sequence of
update-checkpoint calls with arbitrary `(order_id, order_date, count)`
arguments — duplicates and out-of-order calls included — the stored
`(last_order_date, last_order_id)` pair is monotonically non-decreasing under
lexicographic order, and a call whose pair is not strictly greater than the
stored pair leaves the pointer unchanged (a no-op, not an error). -/
theorem claim_C4_checkpoint_monotone :
    ∀ (t : TrackerRow) (calls : List (Int × DT × Nat)),
      lex_le (checkpoint_pair t) (checkpoint_pair (apply_checkpoint_calls t calls)) ∧
      ∀ (i : Int) (d : DT) (c : Nat),
        lex_lt (checkpoint_pair t) (d, i) ∨ update_sync_checkpoint t i d c = t := by
  intro t calls
  refine ⟨apply_checkpoint_calls_mono calls t, ?_⟩
  intro i d c
  unfold update_sync_checkpoint
  split
  · rename_i h
    left
    rcases h with h | ⟨h1, h2⟩
    · exact Or.inl h
    · exact Or.inr ⟨h1.symm, h2⟩
  · right; rfl

/-- Claim C1 evaluated on the code: with checkpoint `(100, 1000)` and the
Scenario B page — ten new orders `110..101` synced, then ten consecutive old
orders — the walk stops at the threshold, and the persisted tracker row is
UNCHANGED at `(100, 1000)`: the early `return stats` on the threshold path
bypasses the `update_sync_checkpoint` call, so the checkpoint is not set to
the most recent synced order `(110, 1010)` as the claim states. -/
theorem claim_C1_threshold_stop_skips_checkpoint_update :
    sync_restaurant_orders (fun _ => true) none (some ⟨100, 1000, 0⟩) [scenarioB_page] =
      ⟨⟨100, 1000, 0⟩, ⟨0, 10, 10, 1, some (110, 1010)⟩, true⟩ := by
  decide

/-- Counterexample to claim C3: with checkpoint `(100, 1000)`, ten old
orders arriving before the checkpoint order id `100` is ever observed
already drive the consecutive-old counter to the threshold — the walk stops
with zero orders synced and never reaches the new order `110`.  Under the
claim those ten orders would not count (the checkpoint marker was never
seen, as the second conjunct records) and `110` would be synced. -/
theorem claim_C3_counterexample :
    sync_restaurant_orders (fun _ => true) none (some ⟨100, 1000, 0⟩)
        [pre_checkpoint_old_page] =
      ⟨⟨100, 1000, 0⟩, ⟨0, 0, 10, 1, none⟩, true⟩ ∧
    ∀ o ∈ pre_checkpoint_old_page, o.id ≠ 100 := by
  constructor
  · decide
  · decide

/-- Claim C3 as amended: an order summary whose `should_process_order` check
fails increments the consecutive-old counter unconditionally — the code
keeps no record of whether the checkpoint order id has been observed, so
there is no gate on counting staleness. -/
theorem claim_C3_amended_unconditional_increment (process_ok : Int → Bool)
    (s : WalkState) (o : OrderSummary) (d : DT)
    (hd : o.creation_date = some d)
    (hold : should_process_order o.id d s.checkpoint = false) :
    process_summary process_ok s o =
      (let s1 := { s with
        consecutive_old_orders := s.consecutive_old_orders + 1
        stats := { s.stats with
          duplicate_orders_skipped := s.stats.duplicate_orders_skipped + 1 } }
       if s1.consecutive_old_orders ≥ stop_threshold then .stopped s1
       else .continued s1) := by
  simp [process_summary, hd, hold]

/-- Concrete instance of the amended claim C3: an old order (`50`, date
`500`) seen first thing in the walk — before the checkpoint id `100` could
possibly have been observed — still bumps the counter from `0` to `1`. -/
theorem claim_C3_amended_witness :
    process_summary (fun _ => true) ⟨some (100, 1000), 0, ⟨0, 0, 0, 0, none⟩⟩
        ⟨50, some 500⟩ =
      .continued ⟨some (100, 1000), 1, ⟨0, 0, 1, 0, none⟩⟩ := by
  have h := claim_C3_amended_unconditional_increment (fun _ => true)
    ⟨some (100, 1000), 0, ⟨0, 0, 0, 0, none⟩⟩ ⟨50, some 500⟩ 500 rfl (by decide)
  simpa using h

/-- Claim C5: `should_process_order` returns `True` when the checkpoint is
`None`; otherwise, for checkpoint `(id0, date0)`, it returns `True` if and
only if `order_date > date0`, or `order_date = date0` and `order_id > id0`. -/
theorem claim_C5_should_process_order :
    ∀ (i : Int) (d : DT) (i0 : Int) (d0 : DT),
      should_process_order i d none = true ∧
      (should_process_order i d (some (i0, d0)) = true ↔
        (d > d0 ∨ (d = d0 ∧ i > i0))) := by
  intro i d i0 d0
  refine ⟨rfl, ?_⟩
  simp only [should_process_order]
  by_cases h1 : d > d0
  · simp [h1]
  · by_cases h2 : d = d0 ∧ i > i0 <;> simp [h1, h2]

/-- Claim C6 evaluated on the code: restaurant `5` already has an active
dimension row (key `1`, stored name `A`) and is resolved again with only
the name changed (to `B`).  The claim says the name is updated in place on
the existing row and the same key `1` is returned with no history row;
instead the call raises `AttributeError` at its very first query — the
filter on `DimRestaurant.is_current`, a column the declared schema omits —
and leaves the table exactly as it was: the stored name is still `A`, there
is still exactly one row, and no surrogate key is produced at all. -/
theorem claim_C6_update_restaurant_dimension_always_raises :
    RestDim.update_restaurant_dimension RestDim.c6_session ⟨5, "B"⟩ =
      (.attribute_error, RestDim.c6_session) ∧
    RestDim.c6_session.current = [⟨1, 5, "A", true⟩] := by
  exact ⟨rfl, rfl⟩

/-- Claim C7 evaluated on the code: the promotion dimension holds one row —
promotion `7` scoped to restaurant `1`, key `3`.  Resolving promotion `7`
now belonging to restaurant `2` returns key `3` and creates nothing: the
lookup filters by promotion business id alone, never by the
`(business id, restaurant scope)` pair the claim describes (every row in
the state belongs to a different restaurant than the promotion being
resolved).  At the orchestrator call site the situation is worse still: the
call passes `(promotion, restaurant_key)` to this one-parameter method, a
`TypeError` at run time. -/
theorem claim_C7_lookup_ignores_restaurant_scope :
    PromoDim.update_promotion_dimension PromoDim.c7_state ⟨7, 2⟩ =
      (PromoDim.c7_state, 3) ∧
    ∀ r ∈ PromoDim.c7_state.rows, r.restaurant_id ≠ 2 := by
  refine ⟨by decide, by decide⟩

/-- Scenario C away from a month boundary, for context: active Monday to
Friday 09:00-22:00, evaluated on Saturday 2026-01-10 at 10:00, the code
returns exactly the seconds to Monday 2026-01-12 09:00
(`2 * 86400 - 3600 = 169200`). -/
theorem time_until_next_window_scenarioC_mid_month :
    Sched.time_until_next_window Sched.weekday_schedule
      ⟨⟨2026, 1, 10⟩, ⟨10, 0, 0⟩⟩ = .ok 169200 := rfl

/-- Claim C9 evaluated on the code: the Monday-to-Friday schedule has active
days, yet evaluated on Saturday 2026-01-31 at 10:00 the code raises
`ValueError` instead of returning the 169200 seconds to Monday 2026-02-02
09:00: `next_start.replace(day=next_start.day + days_ahead)` asks for day
`33` of January.  The claim says the exact seconds are returned for every
instant and that the only raise is the no-active-day configuration
error. -/
theorem claim_C9_month_boundary_value_error :
    Sched.weekday_schedule.active_days ≠ [] ∧
    Sched.time_until_next_window Sched.weekday_schedule
      ⟨⟨2026, 1, 31⟩, ⟨10, 0, 0⟩⟩ =
      .error "ValueError: day is out of range for month" := by
  exact ⟨by decide, rfl⟩

/-- Claim C10: the weekend flag written into the date-time grid is set if
and only if the timestamp has ISO day-of-week 5, 6 or 7 — so Friday
(ISO 5) is classified as a weekend day alongside Saturday and Sunday. -/
theorem claim_C10_weekend_iff_iso_day_5_6_7 (dt : PyDateTime) :
    (Grid.create_datetime_record dt).is_weekend = true ↔
      (isoweekday dt.date = 5 ∨ isoweekday dt.date = 6 ∨ isoweekday dt.date = 7) := by
  simp [Grid.create_datetime_record]

end PullResta
